import Mathlib

/-!
Verification of the calculation & classification engine of the
`final_tax_return` bookkeeping application
(`src/utils/calculations.py`), shallowly embedded in Lean 4.

Monetary amounts and rates are modelled as exact rationals (`ℚ`); the
decimal constants of the source (`0.1021`, `0.2042`) become the exact
rationals `1021/10000`, `2042/10000`.  Python's `round(x, 0)`
(round-half-to-even, "banker's rounding") is modelled by `pyRound`,
Python's `int(x)` truncation toward zero by `pyInt`.  Functions that
raise `ValueError` are modelled in the `Except String` monad, carrying
the source's error message.
-/

/-- Python's `round(x)` / `round(x, 0)`: round to the nearest integer,
ties going to the even integer (banker's rounding). -/
def pyRound (q : ℚ) : ℤ :=
  let f : ℤ := ⌊q⌋
  let r : ℚ := q - f
  if r < 1/2 then f
  else if 1/2 < r then f + 1
  else if f % 2 = 0 then f else f + 1

/-- Python's `int(x)`: truncation toward zero. -/
def pyInt (q : ℚ) : ℤ :=
  if q < 0 then ⌈q⌉ else ⌊q⌋

/-- `WITHHOLDING_TAX_RATE_STANDARD = 0.1021` (10.21%, ≤ 1,000,000 yen). -/
def WITHHOLDING_TAX_RATE_STANDARD : ℚ := 1021/10000

/-- `WITHHOLDING_TAX_RATE_HIGH = 0.2042` (20.42%, over 1,000,000 yen). -/
def WITHHOLDING_TAX_RATE_HIGH : ℚ := 2042/10000

/-- `WITHHOLDING_TAX_THRESHOLD = 1000000`. -/
def WITHHOLDING_TAX_THRESHOLD : ℚ := 1000000

/-- `VALID_CURRENCIES = ('JPY', 'USD')`. -/
def VALID_CURRENCIES : List String := ["JPY", "USD"]

/-- `calculate_jpy_amount(amount, currency, ttm=None)` from
`src/utils/calculations.py`.  Raises on a negative amount, on an
unsupported currency, and on USD conversion without a positive TTM;
returns the amount unchanged for JPY and `round(amount * ttm, 0)`
for USD. -/
def calculate_jpy_amount (amount : ℚ) (currency : String)
    (ttm : Option ℚ := none) : Except String ℚ :=
  if amount < 0 then .error ("Amount must be non-negative")
  else if currency ∉ VALID_CURRENCIES then
    .error ("Unsupported currency: " ++ currency)
  else if currency = "JPY" then .ok amount
  else
    match ttm with
    | none => .error ("TTM is required and must be positive for USD conversion")
    | some t =>
        if t ≤ 0 then
          .error ("TTM is required and must be positive for USD conversion")
        else .ok (pyRound (amount * t))

/-- `calculate_withholding_tax(amount, rate=None)` from
`src/utils/calculations.py`: a custom percentage rate if given,
otherwise the two-bracket statutory schedule, each bracket rounded
separately. -/
def calculate_withholding_tax (amount : ℚ) (rate : Option ℚ := none) :
    Except String ℚ :=
  if amount < 0 then .error ("Amount must be non-negative")
  else
    match rate with
    | some r =>
        if r < 0 ∨ 100 < r then .error ("Rate must be between 0 and 100")
        else .ok (pyRound (amount * r / 100))
    | none =>
        if amount ≤ WITHHOLDING_TAX_THRESHOLD then
          .ok (pyRound (amount * WITHHOLDING_TAX_RATE_STANDARD))
        else
          .ok ((pyRound (WITHHOLDING_TAX_THRESHOLD * WITHHOLDING_TAX_RATE_STANDARD) : ℚ)
            + (pyRound ((amount - WITHHOLDING_TAX_THRESHOLD) * WITHHOLDING_TAX_RATE_HIGH) : ℚ))

/-- `calculate_prorated_amount(amount, proration_rate)` from
`src/utils/calculations.py`. -/
def calculate_prorated_amount (amount : ℚ) (proration_rate : ℚ) :
    Except String ℚ :=
  if amount < 0 then .error ("Amount must be non-negative")
  else if proration_rate < 0 ∨ 100 < proration_rate then
    .error ("Proration rate must be between 0 and 100")
  else .ok (pyRound (amount * proration_rate / 100))

/-- `non_business_categories = {'個人年金'}`. -/
def non_business_categories : List String := ["個人年金"]

/-- `business_categories = {'原稿料', '講演料', '印税', '放送出演料'}`. -/
def business_categories : List String := ["原稿料", "講演料", "印税", "放送出演料"]

/-- `is_business_income(category, annual_income, has_multiple_years=False)`
from `src/utils/calculations.py`.  The Python body is a sequence of
early returns; it is embedded as the equivalent chain of
if-then-else, in source order: the non-business category check, the
unconditional 3,000,000 threshold, the likely-business tier, the
crypto-asset branch (which returns in both of its arms), and the
generic fallback. -/
def is_business_income (category : String) (annual_income : ℚ)
    (has_multiple_years : Bool := false) : Bool :=
  if category ∈ non_business_categories then false
  else if 3000000 ≤ annual_income then true
  else if category ∈ business_categories ∧ 1000000 ≤ annual_income then true
  else if category ∈ business_categories ∧ 500000 ≤ annual_income ∧
      has_multiple_years = true then true
  else if category = "暗号資産" then
    if 5000000 ≤ annual_income then true else false
  else if 2000000 ≤ annual_income then true
  else if 1000000 ≤ annual_income ∧ has_multiple_years = true then true
  else false

/-- Numeric value of an ASCII digit character. -/
def digitVal (c : Char) : ℕ := c.toNat - 48

/-- The ASCII digit character of `n < 10`. -/
def digitChar (n : ℕ) : Char := Char.ofNat (48 + n)

/-- CPython strptime month pattern `1[0-2]|0[1-9]` (the two-digit
alternatives): months 10–12 and zero-padded 01–09. -/
def monthTwoOk (a b : Char) : Bool :=
  (a = '1' && '0' ≤ b && b ≤ '2') || (a = '0' && '1' ≤ b && b ≤ '9')

/-- CPython strptime day pattern `3[01]|[12]\d|0[1-9]` (the two-digit
alternatives): days 30–31, 10–29, and zero-padded 01–09. -/
def dayTwoOk (a b : Char) : Bool :=
  (a = '3' && '0' ≤ b && b ≤ '1') || ((a = '1' || a = '2') && b.isDigit)
    || (a = '0' && '1' ≤ b && b ≤ '9')

/-- Day field of `strptime(_, '%Y-%m-%d')`: a two-digit day at the very
end of the string, or (the regex backtracking alternative `[1-9]`) a
single nonzero digit at the very end.  Any other remainder fails the
overall parse (either no regex match, or leftover characters, which
`strptime` also rejects). -/
def parseDay (y m : ℕ) : List Char → Option (ℕ × ℕ × ℕ)
  | [a, b] =>
      if dayTwoOk a b then some (y, m, 10 * digitVal a + digitVal b) else none
  | [a] =>
      if '1' ≤ a ∧ a ≤ '9' then some (y, m, digitVal a) else none
  | _ => none

/-- Single-digit month alternative `[1-9]` of strptime's `%m`, followed
by the literal `-` and the day field. -/
def parseMonthSingle (y : ℕ) : List Char → Option (ℕ × ℕ × ℕ)
  | a :: '-' :: rest =>
      if '1' ≤ a ∧ a ≤ '9' then parseDay y (digitVal a) rest else none
  | _ => none

/-- Month field of `strptime(_, '%Y-%m-%d')`: the two-digit
alternatives are tried first, and on failure of the rest of the parse
the regex backtracks to the single-digit alternative. -/
def parseMonthDay (y : ℕ) : List Char → Option (ℕ × ℕ × ℕ)
  | a :: b :: '-' :: rest =>
      if monthTwoOk a b then
        match parseDay y (10 * digitVal a + digitVal b) rest with
        | some r => some r
        | none => parseMonthSingle y (a :: b :: '-' :: rest)
      else parseMonthSingle y (a :: b :: '-' :: rest)
  | cs => parseMonthSingle y cs

/-- `strptime(date_str, '%Y-%m-%d')` field extraction: exactly four
digits of year (`%Y` is `\d\d\d\d`), a literal `-`, the month, a
literal `-`, and the day.  Returns the numeric (year, month, day)
triple, before calendar validation. -/
def parseYMD : List Char → Option (ℕ × ℕ × ℕ)
  | c1 :: c2 :: c3 :: c4 :: c5 :: rest =>
      if c1.isDigit ∧ c2.isDigit ∧ c3.isDigit ∧ c4.isDigit ∧ c5 = '-' then
        parseMonthDay
          (digitVal c1 * 1000 + digitVal c2 * 100 + digitVal c3 * 10 + digitVal c4)
          rest
      else none
  | _ => none

/-- Gregorian leap-year rule, as in Python's `datetime`. -/
def isLeapYear (y : ℕ) : Bool :=
  (y % 4 = 0 && y % 100 ≠ 0) || y % 400 = 0

/-- Number of days in a month, as validated by Python's
`datetime(year, month, day)` constructor. -/
def daysInMonth (y m : ℕ) : ℕ :=
  if m = 2 then (if isLeapYear y then 29 else 28)
  else if m = 4 ∨ m = 6 ∨ m = 9 ∨ m = 11 then 30
  else 31

/-- `get_fiscal_year(date_str)` from `src/utils/calculations.py`:
`datetime.strptime(date_str, '%Y-%m-%d').year`.  The regex field
extraction is `parseYMD`; the `datetime` constructor then rejects
year 0 and a day beyond the month's length (the field patterns
already guarantee month 1–12 and day 1–31). -/
def get_fiscal_year (date_str : String) : Except String ℕ :=
  match parseYMD date_str.data with
  | some (y, m, d) =>
      if 1 ≤ y ∧ d ≤ daysInMonth y m then .ok y
      else .error ("day is out of range for month")
  | none => .error ("time data does not match format")

/-- Zero-padded rendering `f"{y:04d}-{m:02d}-{d:02d}"` of a
(year, month, day) triple: the canonical well-formed `YYYY-MM-DD`
string. -/
def formatDate (y m d : ℕ) : String :=
  ⟨[digitChar (y / 1000 % 10), digitChar (y / 100 % 10),
    digitChar (y / 10 % 10), digitChar (y % 10), '-',
    digitChar (m / 10 % 10), digitChar (m % 10), '-',
    digitChar (d / 10 % 10), digitChar (d % 10)]⟩

/-- Thousands grouping: working from the least significant digit,
insert a comma after every three digits (digits arrive reversed). -/
def groupRev : List Char → List Char
  | a :: b :: c :: d :: rest => a :: b :: c :: ',' :: groupRev (d :: rest)
  | l => l

/-- Python's `f"{n:,}"` for an integer `n`: sign, then the decimal
digits grouped in threes by commas. -/
def intCommaStr (n : ℤ) : String :=
  (if n < 0 then "-" else "")
    ++ ⟨(groupRev (Nat.toDigits 10 n.natAbs).reverse).reverse⟩

/-- `format_currency(amount, show_symbol=True)` from
`src/utils/calculations.py`: `f"{int(amount):,}"`, prefixed by `¥`
when `show_symbol` is set. -/
def format_currency (amount : ℚ) (show_symbol : Bool := true) : String :=
  if show_symbol then "¥" ++ intCommaStr (pyInt amount)
  else intCommaStr (pyInt amount)

/-! ## Helper lemmas -/

/-- Branch-free characterization of `is_business_income`: category by
category, the classifier is a threshold formula in the income and the
history flag. -/
lemma is_business_income_eq (cat : String) (x : ℚ) (f : Bool) :
    is_business_income cat x f =
      if cat = "個人年金" then false
      else if cat ∈ business_categories then
        decide (1000000 ≤ x) || (decide (500000 ≤ x) && f)
      else if cat = "暗号資産" then decide (3000000 ≤ x)
      else decide (2000000 ≤ x) || (decide (1000000 ≤ x) && f) := by
  unfold is_business_income non_business_categories
  split_ifs <;> simp_all <;> try first | linarith | exact Or.inl (by linarith)

/-- On the crypto-asset category the classifier reduces to the
unconditional 3,000,000 threshold of the source's second rule. -/
lemma is_business_income_crypto (x : ℚ) (f : Bool) :
    is_business_income "暗号資産" x f = decide (3000000 ≤ x) := by
  rw [is_business_income_eq, if_neg (by decide), if_neg (by decide), if_pos rfl]

lemma digitChar_isDigit {k : ℕ} (h : k < 10) : (digitChar k).isDigit = true := by
  interval_cases k <;> decide

lemma digitVal_digitChar {k : ℕ} (h : k < 10) : digitVal (digitChar k) = k := by
  interval_cases k <;> decide

lemma monthTwoOk_pad {m : ℕ} (h1 : 1 ≤ m) (h2 : m ≤ 12) :
    monthTwoOk (digitChar (m / 10 % 10)) (digitChar (m % 10)) = true := by
  interval_cases m <;> decide

lemma dayTwoOk_pad {d : ℕ} (h1 : 1 ≤ d) (h2 : d ≤ 31) :
    dayTwoOk (digitChar (d / 10 % 10)) (digitChar (d % 10)) = true := by
  interval_cases d <;> decide

lemma pad2_val {m : ℕ} (h : m ≤ 99) :
    10 * digitVal (digitChar (m / 10 % 10)) + digitVal (digitChar (m % 10)) = m := by
  rw [digitVal_digitChar (Nat.mod_lt _ (by norm_num)),
    digitVal_digitChar (Nat.mod_lt _ (by norm_num))]
  omega

/-- Round trip: the strptime field extraction recovers the numeric
fields of every zero-padded `YYYY-MM-DD` rendering (calendar validity
not yet required; month 1–12 and day 1–31 make the field regexes
match). -/
lemma parseYMD_formatDate {y m d : ℕ} (hy2 : y ≤ 9999)
    (hm1 : 1 ≤ m) (hm2 : m ≤ 12) (hd1 : 1 ≤ d) (hd2 : d ≤ 31) :
    parseYMD (formatDate y m d).data = some (y, m, d) := by
  have h10 : ∀ k : ℕ, k % 10 < 10 := fun k => Nat.mod_lt _ (by norm_num)
  show parseYMD [digitChar (y / 1000 % 10), digitChar (y / 100 % 10),
    digitChar (y / 10 % 10), digitChar (y % 10), '-',
    digitChar (m / 10 % 10), digitChar (m % 10), '-',
    digitChar (d / 10 % 10), digitChar (d % 10)] = some (y, m, d)
  simp only [parseYMD]
  rw [if_pos ⟨digitChar_isDigit (h10 _), digitChar_isDigit (h10 _),
    digitChar_isDigit (h10 _), digitChar_isDigit (h10 _), trivial⟩]
  rw [digitVal_digitChar (h10 _), digitVal_digitChar (h10 _),
    digitVal_digitChar (h10 _), digitVal_digitChar (h10 _)]
  have hy : y / 1000 % 10 * 1000 + y / 100 % 10 * 100 + y / 10 % 10 * 10 + y % 10 = y := by
    omega
  rw [hy]
  simp only [parseMonthDay]
  rw [if_pos (monthTwoOk_pad hm1 hm2)]
  rw [pad2_val (by omega : m ≤ 99)]
  simp only [parseDay]
  rw [if_pos (dayTwoOk_pad hd1 hd2)]
  rw [pad2_val (by omega : d ≤ 99)]

/-- A month never has more than 31 days. -/
lemma daysInMonth_le {y m : ℕ} : daysInMonth y m ≤ 31 := by
  unfold daysInMonth
  split_ifs <;> norm_num

/-! ## Claim theorems -/

/-- C1 (counterexample): the claim asserts
`is_business_income('暗号資産', 4_999_999, True) == False`, but the
source's unconditional 3,000,000 threshold fires before the crypto
branch, so the call returns `True`. -/
theorem C1_crypto_counterexample :
    is_business_income "暗号資産" 4999999 true = true := by decide

/-- C1 (amended): for the crypto-asset category, `is_business_income`
returns `True` exactly when annual income is at least 3,000,000 yen
(the generic 3,000,000 rule fires before the crypto branch's
5,000,000 test is reached); in particular
`is_business_income('暗号資産', 4_999_999, True) == True` and
`is_business_income('暗号資産', 5_000_000, False) == True`. -/
theorem C1_crypto_amended :
    (∀ (x : ℚ) (f : Bool), is_business_income "暗号資産" x f = decide (3000000 ≤ x)) ∧
    is_business_income "暗号資産" 4999999 true = true ∧
    is_business_income "暗号資産" 5000000 false = true :=
  ⟨fun x f => is_business_income_crypto x f, by decide, by decide⟩

/-- C2: for the crypto-asset category and every value of the
multi-year flag, `is_business_income` returns `True` exactly when the
income is at least 3,000,000 yen, and in particular the crypto
branch's own `>= 5,000,000` test — reachable only with income below
3,000,000 — never produces `True`. -/
theorem C2_crypto_three_million_threshold :
    (∀ (x : ℚ) (f : Bool), is_business_income "暗号資産" x f = true ↔ 3000000 ≤ x) ∧
    (∀ (x : ℚ) (f : Bool), x < 3000000 → is_business_income "暗号資産" x f = false) := by
  constructor
  · intro x f
    rw [is_business_income_crypto]
    exact decide_eq_true_iff
  · intro x f h
    rw [is_business_income_crypto]
    exact decide_eq_false (not_le.mpr h)

/-- C2 witness at income 2,999,999. -/
theorem C2_witness :
    is_business_income "暗号資産" 2999999 true = false :=
  C2_crypto_three_million_threshold.2 2999999 true (by norm_num)

/-- C4: for every likely-business category with income below
3,000,000 yen, the classifier returns `True` iff the income is at
least 1,000,000, or at least 500,000 with a multi-year history;
otherwise `False` (the generic fallback rules never fire for these
inputs); in particular `is_business_income('原稿料', 600_000, True)`
is `True` and `is_business_income('原稿料', 600_000, False)` is
`False`. -/
theorem C4_likely_business_tiers :
    (∀ cat : String, cat ∈ business_categories → ∀ x : ℚ, x < 3000000 → ∀ f : Bool,
        is_business_income cat x f
          = (decide (1000000 ≤ x) || (decide (500000 ≤ x) && f))) ∧
    is_business_income "原稿料" 600000 true = true ∧
    is_business_income "原稿料" 600000 false = false := by
  refine ⟨fun cat hcat x hx f => ?_, by decide, by decide⟩
  have hne : ¬ cat = "個人年金" := by
    simp only [business_categories, List.mem_cons, List.not_mem_nil, or_false] at hcat
    rcases hcat with rfl | rfl | rfl | rfl <;> decide
  rw [is_business_income_eq, if_neg hne, if_pos hcat]

/-- C4 witness at 原稿料, 600,000, with and without history. -/
theorem C4_witness :
    is_business_income "原稿料" 600000 true
      = (decide ((1000000 : ℚ) ≤ 600000) || (decide ((500000 : ℚ) ≤ 600000) && true)) ∧
    is_business_income "原稿料" 600000 false
      = (decide ((1000000 : ℚ) ≤ 600000) || (decide ((500000 : ℚ) ≤ 600000) && false)) :=
  ⟨C4_likely_business_tiers.1 "原稿料" (by decide) 600000 (by norm_num) true,
   C4_likely_business_tiers.1 "原稿料" (by decide) 600000 (by norm_num) false⟩

/-- C9: the classifier is monotone: raising the income never turns a
`True` verdict into `False` (for any fixed category and flag), and
turning the multi-year flag on never turns a `True` verdict into
`False` (for any fixed category and income). -/
theorem C9_monotone :
    (∀ (cat : String) (f : Bool) (x y : ℚ), x ≤ y →
        is_business_income cat x f = true → is_business_income cat y f = true) ∧
    (∀ (cat : String) (x : ℚ),
        is_business_income cat x false = true → is_business_income cat x true = true) := by
  constructor
  · intro cat f x y hxy h
    rw [is_business_income_eq] at h ⊢
    split_ifs at h ⊢ <;> simp_all
    all_goals
      first
        | linarith
        | (rcases h with h | ⟨h1, h2⟩
           exacts [Or.inl (by linarith), Or.inr ⟨by linarith, h2⟩])
  · intro cat x h
    rw [is_business_income_eq] at h ⊢
    split_ifs at h ⊢ <;> simp_all

/-- C9 witness: a generic-category verdict survives an income raise,
and a likely-business verdict survives enabling the flag. -/
theorem C9_witness :
    is_business_income "その他" 2500000 false = true ∧
    is_business_income "その他" 2000000 true = true :=
  ⟨C9_monotone.1 "その他" false 2000000 2500000 (by norm_num) (by decide),
   C9_monotone.2 "その他" 2000000 (by decide)⟩

/-- C3: with no custom rate, the withholding tax is
`round(amount * 0.1021)` up to the 1,000,000 threshold and
`round(1,000,000 * 0.1021) + round((amount - 1,000,000) * 0.2042)`
above it, each bracket rounded separately; in particular
`withholding(1_000_000) == 102100` and
`withholding(1_100_000) == 122520`. -/
theorem C3_withholding_schedule :
    (∀ a : ℚ, 0 ≤ a → a ≤ 1000000 →
        calculate_withholding_tax a none = .ok (pyRound (a * (1021/10000)))) ∧
    (∀ a : ℚ, 1000000 < a →
        calculate_withholding_tax a none =
          .ok ((pyRound ((1000000 : ℚ) * (1021/10000)) : ℚ)
            + (pyRound ((a - 1000000) * (2042/10000)) : ℚ))) ∧
    calculate_withholding_tax 1000000 none = .ok 102100 ∧
    calculate_withholding_tax 1100000 none = .ok 122520 := by
  refine ⟨fun a h0 h1 => ?_, fun a h1 => ?_, ?_, ?_⟩
  · simp only [calculate_withholding_tax, WITHHOLDING_TAX_THRESHOLD,
      WITHHOLDING_TAX_RATE_STANDARD]
    rw [if_neg (by linarith), if_pos h1]
  · simp only [calculate_withholding_tax, WITHHOLDING_TAX_THRESHOLD,
      WITHHOLDING_TAX_RATE_STANDARD, WITHHOLDING_TAX_RATE_HIGH]
    rw [if_neg (by linarith), if_neg (not_le.mpr h1)]
  · norm_num [calculate_withholding_tax, pyRound, WITHHOLDING_TAX_THRESHOLD,
      WITHHOLDING_TAX_RATE_STANDARD]
  · norm_num [calculate_withholding_tax, pyRound, WITHHOLDING_TAX_THRESHOLD,
      WITHHOLDING_TAX_RATE_STANDARD, WITHHOLDING_TAX_RATE_HIGH]

/-- C3 witness: the standard bracket at 500,000 and the two-bracket
schedule at 2,000,000. -/
theorem C3_witness :
    calculate_withholding_tax 500000 none = .ok (pyRound ((500000 : ℚ) * (1021/10000))) ∧
    calculate_withholding_tax 2000000 none =
      .ok ((pyRound ((1000000 : ℚ) * (1021/10000)) : ℚ)
        + (pyRound (((2000000 : ℚ) - 1000000) * (2042/10000)) : ℚ)) :=
  ⟨C3_withholding_schedule.1 500000 (by norm_num) (by norm_num),
   C3_withholding_schedule.2.1 2000000 (by norm_num)⟩

/-- C5: `calculate_jpy_amount` is the identity on yen amounts (no
rounding) and a rounded multiply on dollar amounts; in particular
`to_jpy(100, 'USD', 150) == 15000`. -/
theorem C5_jpy_amount :
    (∀ x : ℚ, 0 ≤ x → calculate_jpy_amount x "JPY" none = .ok x) ∧
    (∀ x r : ℚ, 0 ≤ x → 0 < r →
        calculate_jpy_amount x "USD" (some r) = .ok (pyRound (x * r))) ∧
    calculate_jpy_amount 100 "USD" (some 150) = .ok 15000 := by
  refine ⟨fun x h0 => ?_, fun x r h0 hr => ?_, ?_⟩
  · simp only [calculate_jpy_amount]
    rw [if_neg (by linarith), if_neg (by decide), if_pos trivial]
  · simp only [calculate_jpy_amount]
    rw [if_neg (by linarith), if_neg (by decide), if_neg (by decide),
      if_neg (not_le.mpr hr)]
  · norm_num [calculate_jpy_amount, pyRound, VALID_CURRENCIES]
    decide

/-- C5 witness: identity at 7 yen, rounded multiply at 3 USD and a
fractional rate. -/
theorem C5_witness :
    calculate_jpy_amount 7 "JPY" none = .ok 7 ∧
    calculate_jpy_amount 3 "USD" (some (3/2)) = .ok (pyRound ((3 : ℚ) * (3/2))) :=
  ⟨C5_jpy_amount.1 7 (by norm_num),
   C5_jpy_amount.2.1 3 (3/2) (by norm_num) (by norm_num)⟩

/-- C10: on the JPY path the rate argument is never inspected: for
every rate — absent, zero, or negative — the amount comes back
unchanged and no error is raised. -/
theorem C10_jpy_ignores_rate :
    ∀ x : ℚ, 0 ≤ x → ∀ t : Option ℚ, calculate_jpy_amount x "JPY" t = .ok x := by
  intro x h0 t
  simp only [calculate_jpy_amount]
  rw [if_neg (by linarith), if_neg (by decide), if_pos trivial]

/-- C10 witness: absent, zero, and negative rates on the JPY path. -/
theorem C10_witness :
    calculate_jpy_amount 7 "JPY" none = .ok 7 ∧
    calculate_jpy_amount 7 "JPY" (some 0) = .ok 7 ∧
    calculate_jpy_amount 7 "JPY" (some (-3)) = .ok 7 :=
  ⟨C10_jpy_ignores_rate 7 (by norm_num) none,
   C10_jpy_ignores_rate 7 (by norm_num) (some 0),
   C10_jpy_ignores_rate 7 (by norm_num) (some (-3))⟩

/-- C6: the engine's validation raises exactly on violated input
constraints and returns no partial result: `calculate_jpy_amount`
errors on a negative amount, an unsupported currency, and a missing
or non-positive USD rate; `calculate_prorated_amount` errors on a
negative amount or a rate outside [0,100] and otherwise returns
`round(amount * rate / 100)`; in particular `prorate(100_000, 101)`
errors, `prorate(100_000, 50) == 50000`, `prorate(100_000, 0) == 0`. -/
theorem C6_validation :
    (∀ (a : ℚ) (c : String) (t : Option ℚ), a < 0 →
        calculate_jpy_amount a c t = .error ("Amount must be non-negative")) ∧
    (∀ (a : ℚ) (c : String) (t : Option ℚ), 0 ≤ a → c ∉ VALID_CURRENCIES →
        calculate_jpy_amount a c t = .error ("Unsupported currency: " ++ c)) ∧
    (∀ a : ℚ, 0 ≤ a → calculate_jpy_amount a "USD" none
        = .error ("TTM is required and must be positive for USD conversion")) ∧
    (∀ a r : ℚ, 0 ≤ a → r ≤ 0 → calculate_jpy_amount a "USD" (some r)
        = .error ("TTM is required and must be positive for USD conversion")) ∧
    (∀ a r : ℚ, a < 0 →
        calculate_prorated_amount a r = .error ("Amount must be non-negative")) ∧
    (∀ a r : ℚ, 0 ≤ a → r < 0 ∨ 100 < r →
        calculate_prorated_amount a r = .error ("Proration rate must be between 0 and 100")) ∧
    (∀ a r : ℚ, 0 ≤ a → 0 ≤ r → r ≤ 100 →
        calculate_prorated_amount a r = .ok (pyRound (a * r / 100))) ∧
    calculate_prorated_amount 100000 101 = .error ("Proration rate must be between 0 and 100") ∧
    calculate_prorated_amount 100000 50 = .ok 50000 ∧
    calculate_prorated_amount 100000 0 = .ok 0 := by
  refine ⟨fun a c t ha => ?_, fun a c t ha hc => ?_, fun a ha => ?_,
    fun a r ha hr => ?_, fun a r ha => ?_, fun a r ha hr => ?_,
    fun a r ha hr0 hr1 => ?_, ?_, ?_, ?_⟩
  · simp only [calculate_jpy_amount]
    rw [if_pos ha]
  · simp only [calculate_jpy_amount]
    rw [if_neg (by linarith), if_pos hc]
  · simp only [calculate_jpy_amount]
    rw [if_neg (by linarith), if_neg (by decide), if_neg (by decide)]
  · simp only [calculate_jpy_amount]
    rw [if_neg (by linarith), if_neg (by decide), if_neg (by decide), if_pos hr]
  · simp only [calculate_prorated_amount]
    rw [if_pos ha]
  · simp only [calculate_prorated_amount]
    rw [if_neg (by linarith), if_pos hr]
  · simp only [calculate_prorated_amount]
    rw [if_neg (by linarith), if_neg (by push_neg; exact ⟨hr0, hr1⟩)]
  · norm_num [calculate_prorated_amount]
  · norm_num [calculate_prorated_amount, pyRound]
  · norm_num [calculate_prorated_amount, pyRound]

/-- C6 witness: each validation rule exercised at a concrete input. -/
theorem C6_witness :
    calculate_jpy_amount (-1) "JPY" none = .error ("Amount must be non-negative") ∧
    calculate_jpy_amount 5 "EUR" none = .error ("Unsupported currency: " ++ "EUR") ∧
    calculate_jpy_amount 100 "USD" none
      = .error ("TTM is required and must be positive for USD conversion") ∧
    calculate_jpy_amount 100 "USD" (some 0)
      = .error ("TTM is required and must be positive for USD conversion") ∧
    calculate_prorated_amount (-5) 50 = .error ("Amount must be non-negative") ∧
    calculate_prorated_amount 100000 101 = .error ("Proration rate must be between 0 and 100") ∧
    calculate_prorated_amount 100000 50 = .ok (pyRound ((100000 : ℚ) * 50 / 100)) :=
  ⟨C6_validation.1 (-1) "JPY" none (by norm_num),
   C6_validation.2.1 5 "EUR" none (by norm_num) (by decide),
   C6_validation.2.2.1 100 (by norm_num),
   C6_validation.2.2.2.1 100 0 (by norm_num) (by norm_num),
   C6_validation.2.2.2.2.1 (-5) 50 (by norm_num),
   C6_validation.2.2.2.2.2.1 100000 101 (by norm_num) (Or.inr (by norm_num)),
   C6_validation.2.2.2.2.2.2.1 100000 50 (by norm_num) (by norm_num) (by norm_num)⟩

/-- C7: `get_fiscal_year` returns the calendar year of every
well-formed `YYYY-MM-DD` date string (no fiscal-year offset), and
fails on malformed strings and impossible calendar dates; in
particular `fiscal_year('2025-03-15') == 2025` and
`fiscal_year('2025-13-01')` raises. -/
theorem C7_fiscal_year :
    (∀ y m d : ℕ, 1 ≤ y → y ≤ 9999 → 1 ≤ m → m ≤ 12 → 1 ≤ d → d ≤ daysInMonth y m →
        get_fiscal_year (formatDate y m d) = .ok y) ∧
    (∀ y m d : ℕ, 1 ≤ y → y ≤ 9999 → 1 ≤ m → m ≤ 12 → 1 ≤ d → d ≤ 31 →
        daysInMonth y m < d →
        get_fiscal_year (formatDate y m d) = .error ("day is out of range for month")) ∧
    get_fiscal_year "2025-03-15" = .ok 2025 ∧
    get_fiscal_year "2025-13-01" = .error ("time data does not match format") := by
  refine ⟨fun y m d hy1 hy2 hm1 hm2 hd1 hd2 => ?_,
    fun y m d hy1 hy2 hm1 hm2 hd1 hd2 hd3 => ?_, by rfl, by rfl⟩
  · unfold get_fiscal_year
    rw [parseYMD_formatDate hy2 hm1 hm2 hd1 (le_trans hd2 daysInMonth_le)]
    show (if 1 ≤ y ∧ d ≤ daysInMonth y m then (Except.ok y : Except String ℕ)
      else .error ("day is out of range for month")) = .ok y
    rw [if_pos ⟨hy1, hd2⟩]
  · unfold get_fiscal_year
    rw [parseYMD_formatDate hy2 hm1 hm2 hd1 hd2]
    show (if 1 ≤ y ∧ d ≤ daysInMonth y m then (Except.ok y : Except String ℕ)
      else .error ("day is out of range for month")) = _
    rw [if_neg (fun h => absurd h.2 (not_le.mpr hd3))]

/-- C7 witness: 2025-03-15 through the symbolic round trip, and the
impossible date 2025-02-30. -/
theorem C7_witness :
    get_fiscal_year (formatDate 2025 3 15) = .ok 2025 ∧
    get_fiscal_year (formatDate 2025 2 30) = .error ("day is out of range for month") :=
  ⟨C7_fiscal_year.1 2025 3 15 (by norm_num) (by norm_num) (by norm_num) (by norm_num)
      (by norm_num) (by decide),
   C7_fiscal_year.2.1 2025 2 30 (by norm_num) (by norm_num) (by norm_num) (by norm_num)
      (by norm_num) (by norm_num) (by decide)⟩

lemma pyInt_intCast (n : ℤ) : pyInt (n : ℚ) = n := by
  unfold pyInt
  split_ifs <;> simp

/-- C8: `format_currency` truncates to integer yen (it does not
round), groups the digits in threes with commas, and prefixes `¥`
exactly when the symbol flag is set; in particular
`format_currency(1234567) == '¥1,234,567'` and
`format_currency(1234567, show_symbol=False) == '1,234,567'`, while
`format_currency(1.5)` renders `¥1`. -/
theorem C8_format_currency :
    (∀ q : ℚ, format_currency q true = "¥" ++ format_currency q false) ∧
    (∀ (q : ℚ) (b : Bool), format_currency q b = format_currency ((pyInt q : ℤ) : ℚ) b) ∧
    format_currency (3/2) true = "¥1" ∧
    format_currency 1234567 true = "¥1,234,567" ∧
    format_currency 1234567 false = "1,234,567" := by
  refine ⟨fun q => ?_, fun q b => ?_, ?_, by rfl, by rfl⟩
  · simp [format_currency]
  · simp [format_currency, pyInt_intCast]
  · norm_num [format_currency, pyInt, intCommaStr]
    decide
